import Mathlib

/-!
# GABAGOOL trading core — verification of the policy pipeline

Shallow embedding of the policy engine (`src/services/policyEngine.ts`), the
parameter loader (`src/services/paramLoader.ts`) and the policy integrator
(`src/services/marketTracker.ts`, second `PolicyIntegrator` variant).

Modelling conventions:
* JavaScript numbers are modelled as exact rationals (`ℚ`); every arithmetic
  operation used by the embedded code (add, sub, mul, div by nonzero
  constants, abs, comparisons) is exact on the values the program handles.
* A JavaScript value that may be `undefined`/`null` is an `Option`.
* The JavaScript `x || d` idiom (default on *falsy* values: `undefined`,
  `null`, `0`, `""`) is modelled by explicit helpers `jsOrQ` / `jsOrStr` /
  `jsOrNullQ`.
* A JavaScript `TypeError` thrown by dereferencing `undefined` is modelled by
  `Except.error`; all other code is total.
* JavaScript objects used as string-keyed tables are association lists
  (`List (String × v)`) preserving insertion order, which is the enumeration
  order of `Object.values` for non-numeric string keys.
-/

/- The Batteries definitions of `Rat.add`, `Rat.sub`, `Rat.mul`, `Rat.inv`
and `Rat.ofScientific` are `@[irreducible]`, which blocks `decide` from
evaluating concrete rational arithmetic; restore the default reducibility
for the rest of this file so the embedded functions are executable by the
kernel. -/
attribute [local semireducible] Rat.mul Rat.add Rat.sub Rat.inv Rat.ofScientific

deriving instance DecidableEq for Except

namespace Gabagool

/-- JS `a || b` for numbers: `undefined`/`null` (`none`) and `0` are falsy. -/
def jsOrQ (o : Option ℚ) (d : ℚ) : ℚ :=
  match o with
  | none => d
  | some v => if v = 0 then d else v

/-- JS `x || null` for numbers: `undefined` and `0` collapse to `null`. -/
def jsOrNullQ (o : Option ℚ) : Option ℚ :=
  match o with
  | none => none
  | some v => if v = 0 then none else some v

/-- JS `a || b` for strings: `undefined`/`null` and `""` are falsy. -/
def jsOrStr (o : Option String) (d : String) : String :=
  match o with
  | none => d
  | some s => if s = "" then d else s

/-- `n` is a prefix of `h` (on character lists). -/
def isPrefixCh : List Char → List Char → Bool
  | [], _ => true
  | _ :: _, [] => false
  | a :: as, b :: bs => a = b && isPrefixCh as bs

/-- `n` occurs contiguously in `h` (on character lists). -/
def isInfixCh (n : List Char) : List Char → Bool
  | [] => n.isEmpty
  | b :: bs => isPrefixCh n (b :: bs) || isInfixCh n bs

/-- JS `String.prototype.includes`: `sub` occurs contiguously in `s`. -/
def jsIncludes (s sub : String) : Bool :=
  isInfixCh sub.data s.data

/-- Smallest `k ≤ 30` with `q * 10^k` integral, if any (true for every decimal
literal appearing in the parameter documents). -/
def decExp? (q : ℚ) : Option ℕ :=
  (List.range 31).find? (fun k => (q * (10 : ℚ) ^ k).den = 1)

/-- Left-pad a numeral string with zeros to width `w`. -/
def padZeros (s : String) (w : ℕ) : String :=
  String.mk (List.replicate (w - s.length) '0') ++ s

/-- JS number-to-string conversion (template-literal interpolation) for the
terminating decimals the code manipulates: integers print without a decimal
point (`1`, not `1.0`), fractions print with the shortest digit string
(`0.2`, `-0.001`).  Values whose denominator is not a power of ten do not
occur in bucket labels; they get a fraction rendering that never collides
with a decimal label. -/
def jsNumStr (q : ℚ) : String :=
  let sign := if q < 0 then "-" else ""
  let a := |q|
  match decExp? a with
  | none => sign ++ toString a.num ++ "/" ++ toString a.den
  | some k =>
      let n : ℕ := (a * (10 : ℚ) ^ k).num.toNat
      if k = 0 then sign ++ toString n
      else
        let ip : ℕ := n / 10 ^ k
        let fp : ℕ := n % 10 ^ k
        sign ++ toString ip ++ "." ++ padZeros (toString fp) k

/-- Finite string-keyed maps of the integrator state (JS `Map`), modelled as
functions into `Option`. -/
def SMap (α : Type) : Type := String → Option α

/-- `Map.prototype.set` (also models deletion via `none`). -/
def SMap.set {α : Type} (m : SMap α) (k : String) (v : Option α) : SMap α :=
  fun x => if x = k then v else m x

/-- The empty map. -/
def SMap.empty {α : Type} : SMap α := fun _ => none

/-! ## Data model (`policyEngine.ts`, `paramLoader.ts` interfaces) -/

/-- Binary market outcome side. -/
inductive Side where
  | UP : Side
  | DOWN : Side
deriving DecidableEq, Repr

/-- `TapeState`: one two-sided price observation. -/
structure TapeState where
  timestamp : ℚ
  up_px : ℚ
  down_px : ℚ
  market : String
deriving DecidableEq, Repr

/-- `PriceHistory` entry. -/
structure PriceHistory where
  timestamp : ℚ
  up_px : ℚ
  down_px : ℚ
deriving DecidableEq, Repr

/-- `Features` computed from tape state and history.  `volatility_5s` /
`volatility_30s` hold the population *variance* over the window; the source
stores its square root (`Math.sqrt`), which ℚ cannot represent — no embedded
consumer (entry, cooldown, side selection, sizing) reads these two fields. -/
structure Features where
  delta_1s_side_px : Option ℚ := none
  delta_5s_side_px : Option ℚ := none
  delta_30s_side_px : Option ℚ := none
  delta_1s_up_px : Option ℚ := none
  delta_5s_up_px : Option ℚ := none
  delta_30s_up_px : Option ℚ := none
  delta_1s_down_px : Option ℚ := none
  delta_5s_down_px : Option ℚ := none
  delta_30s_down_px : Option ℚ := none
  volatility_5s : Option ℚ := none
  volatility_30s : Option ℚ := none
  distance_from_50 : ℚ
deriving DecidableEq, Repr

/-- `InventoryState`. -/
structure InventoryState where
  inv_up_shares : ℚ
  inv_down_shares : ℚ
  avg_cost_up : Option ℚ := none
  avg_cost_down : Option ℚ := none
deriving DecidableEq, Repr

/-- `EntrySignal` result record. -/
structure EntrySignal where
  should_trade : Bool
  side : Option Side
  reason : String
deriving DecidableEq, Repr

/-- `EntryParams` (`paramLoader.ts`).  `mode` is the literal string union
`'momentum' | 'reversion' | 'none'`. -/
structure EntryParams where
  up_price_min : Option ℚ
  up_price_max : Option ℚ
  down_price_min : Option ℚ
  down_price_max : Option ℚ
  momentum_window_s : ℚ
  momentum_threshold : ℚ
  mode : String
deriving DecidableEq, Repr

/-- `SizeParams`.  The declared interface carries `bin_edges`, `size_table`
and `conditioning_var`; the engine additionally reads `size_table_1d`,
`inventory_bucket_thresholds` and `inventory_buckets` from the raw document,
all of which may be absent (`undefined`) at run time — hence `Option`s. -/
structure SizeParams where
  bin_edges : Option (List ℚ)
  size_table : Option (List (String × ℚ))
  size_table_1d : Option (List (String × ℚ)) := none
  conditioning_var : Option String := none
  inventory_bucket_thresholds : Option (List ℚ) := none
  inventory_buckets : Option (List String) := none
deriving DecidableEq, Repr

/-- `InventoryParams`. -/
structure InventoryParams where
  rebalance_ratio_R : ℚ
  max_up_shares : ℚ
  max_down_shares : ℚ
  max_total_shares : ℚ
deriving DecidableEq, Repr

/-- `CadenceParams`. -/
structure CadenceParams where
  min_inter_trade_ms : ℚ
  p50_inter_trade_ms : ℚ := 0
  p95_inter_trade_ms : ℚ := 0
  max_trades_per_sec : ℚ
  max_trades_per_min : ℚ
deriving DecidableEq, Repr

/-- `SideSelectionParams` (read by the integrator's side-selection step). -/
structure SideSelectionParams where
  mode : String
  preferred_side : Option Side := none
  confidence_gap : Option ℚ := none
deriving DecidableEq, Repr

/-- `ExecutionParams`. -/
structure ExecutionParams where
  model_type : String
  slippage_offset : ℚ := 0
  fill_bias_median : Option ℚ := none
  fill_bias_p75 : Option ℚ := none
deriving DecidableEq, Repr

/-- `CooldownParams`. -/
structure CooldownParams where
  has_time_cooldown : Bool
  time_cooldown_seconds : ℚ
  price_move_threshold : Option ℚ
  has_inventory_lockout : Bool
  inventory_lockout_threshold : Option ℚ
deriving DecidableEq, Repr

/-- `RiskParams`. -/
structure RiskParams where
  max_trades_per_session : Option ℚ
  max_imbalance_ratio : ℚ
  max_exposure_up_shares : ℚ
  max_exposure_down_shares : ℚ
deriving DecidableEq, Repr

/-- `QualityFilterParams`. -/
structure QualityFilterParams where
  max_price_sum_deviation : ℚ
  timestamp_jump_threshold_seconds : ℚ
  price_gap_threshold : ℚ
deriving DecidableEq, Repr

/-- `ResetParams`. -/
structure ResetParams where
  resets_on_market_switch : Bool
  resets_on_inactivity : Bool
  inactivity_threshold_hours : ℚ
deriving DecidableEq, Repr

/-- `MarketParams`: the per-market parameter record the integrator consumes.
The declared `paramLoader.ts` interface lists only the first four fields; the
integrator (`marketTracker.ts`) also reads the remaining sections, which are
`undefined` when absent from the document. -/
structure MarketParams where
  entry_params : Option EntryParams := none
  size_params : Option SizeParams := none
  inventory_params : Option InventoryParams := none
  cadence_params : Option CadenceParams := none
  side_selection_params : Option SideSelectionParams := none
  execution_params : Option ExecutionParams := none
  cooldown_params : Option CooldownParams := none
  risk_params : Option RiskParams := none
  quality_filter_params : Option QualityFilterParams := none
  reset_params : Option ResetParams := none
deriving Repr

/-- Stable insertion of `x` into `l`: after every `y` with `le y x`. -/
def insertBy {α : Type} (le : α → α → Bool) (x : α) : List α → List α
  | [] => [x]
  | y :: ys => if le y x then y :: insertBy le x ys else x :: y :: ys

/-- Stable sort with a boolean `le`, the behaviour of JS
`Array.prototype.sort` under a numeric comparator. -/
def sortBy {α : Type} (le : α → α → Bool) (l : List α) : List α :=
  l.foldl (fun acc x => insertBy le x acc) []

/-! ## Policy engine (`policyEngine.ts`) -/

/-- `policyEngine.ts` line 63: paper mode disables the entry band checks in
`entrySignal` (not in `checkSideEntry`). -/
def IGNORE_ENTRY_BANDS : Bool := true

/-- `PolicyEngine.computeFeatures`.  The `volatility_*` fields hold the
population variance (see `Features`). -/
def computeFeatures (state : TapeState) (history : List PriceHistory) : Features :=
  let d50 := |state.up_px - (0.5 : ℚ)|
  if history.isEmpty then { distance_from_50 := d50 }
  else
    let sortedHistory := sortBy (fun a b => decide (a.timestamp ≤ b.timestamp)) history
    let now := state.timestamp
    let findClosest := fun (targetTs : ℚ) =>
      match sortedHistory with
      | [] => (⟨0, 0, 0⟩ : PriceHistory)
      | h :: t => t.foldl
          (fun (best x : PriceHistory) =>
            if |x.timestamp - targetTs| < |best.timestamp - targetTs| then x else best) h
    let deltaAt := fun (seconds : ℚ) =>
      let windowTs := now - seconds * 1000
      let past := findClosest windowTs
      if |past.timestamp - windowTs| < seconds * 2000 then
        some (state.up_px - past.up_px, state.down_px - past.down_px)
      else none
    let volAt := fun (seconds : ℚ) =>
      let windowTs := now - seconds * 1000
      let windowPrices := (sortedHistory.filter
        (fun h => decide (windowTs ≤ h.timestamp) && decide (h.timestamp ≤ now))).map
        (fun h => h.up_px)
      if 1 < windowPrices.length then
        let mean := (windowPrices.foldl (· + ·) 0) / (windowPrices.length : ℚ)
        some ((windowPrices.foldl (fun sum p => sum + (p - mean) * (p - mean)) 0) /
          (windowPrices.length : ℚ))
      else none
    let d1 := deltaAt 1
    let d5 := deltaAt 5
    let d30 := deltaAt 30
    { distance_from_50 := d50
      delta_1s_up_px := d1.map Prod.fst
      delta_1s_down_px := d1.map Prod.snd
      delta_1s_side_px := d1.map Prod.fst
      delta_5s_up_px := d5.map Prod.fst
      delta_5s_down_px := d5.map Prod.snd
      delta_5s_side_px := d5.map Prod.fst
      delta_30s_up_px := d30.map Prod.fst
      delta_30s_down_px := d30.map Prod.snd
      delta_30s_side_px := d30.map Prod.fst
      volatility_5s := volAt 5
      volatility_30s := volAt 30 }

/-- `PolicyEngine.entrySignal`.  With `IGNORE_ENTRY_BANDS = true` both
`upInBand` and `downInBand` are unconditionally `true`. -/
def entrySignal (state : TapeState) (features : Features)
    (entryParams : Option EntryParams) : EntrySignal :=
  match entryParams with
  | none => ⟨false, none, "no_entry_params"⟩
  | some ep =>
    let upInBand : Bool := IGNORE_ENTRY_BANDS ||
      (match ep.up_price_min, ep.up_price_max with
       | some mn, some mx => decide (mn ≤ state.up_px) && decide (state.up_px ≤ mx)
       | _, _ => false)
    let downInBand : Bool := IGNORE_ENTRY_BANDS ||
      (match ep.down_price_min, ep.down_price_max with
       | some mn, some mx => decide (mn ≤ state.down_px) && decide (state.down_px ≤ mx)
       | _, _ => false)
    let delta5s := features.delta_5s_side_px.getD 0
    let upResult : Option EntrySignal :=
      if upInBand then
        if ep.mode = "momentum" then
          if delta5s < ep.momentum_threshold then none
          else some ⟨true, some .UP, "momentum_met"⟩
        else if ep.mode = "reversion" then
          if delta5s > -ep.momentum_threshold then none
          else some ⟨true, some .UP, "reversion_met"⟩
        else some ⟨true, some .UP, "up_price_band"⟩
      else none
    match upResult with
    | some r => r
    | none =>
      let delta5sDown := features.delta_5s_down_px.getD delta5s
      if downInBand then
        if ep.mode = "momentum" then
          if delta5sDown < ep.momentum_threshold then ⟨false, none, "no_band_match"⟩
          else ⟨true, some .DOWN, "momentum_met"⟩
        else if ep.mode = "reversion" then
          if delta5sDown > -ep.momentum_threshold then ⟨false, none, "no_band_match"⟩
          else ⟨true, some .DOWN, "reversion_met"⟩
        else ⟨true, some .DOWN, "down_price_band"⟩
      else ⟨false, none, "no_band_match"⟩

/-- `PolicyEngine.checkSideEntry`: per-side entry check; unlike
`entrySignal`, this one does enforce the price bands. -/
def checkSideEntry (state : TapeState) (features : Features)
    (entryParams : Option EntryParams) (side : Side) : EntrySignal :=
  match entryParams with
  | none => ⟨false, none, "no_entry_params"⟩
  | some ep =>
    match side with
    | .UP =>
      let upInBand : Bool :=
        match ep.up_price_min, ep.up_price_max with
        | some mn, some mx => decide (mn ≤ state.up_px) && decide (state.up_px ≤ mx)
        | _, _ => false
      if !upInBand then ⟨false, none, "up_price_not_in_band"⟩
      else
        let delta5s := features.delta_5s_side_px.getD 0
        if ep.mode = "momentum" then
          if delta5s < ep.momentum_threshold then ⟨false, none, "momentum_not_met"⟩
          else ⟨true, some .UP, "momentum_met"⟩
        else if ep.mode = "reversion" then
          if delta5s > -ep.momentum_threshold then ⟨false, none, "reversion_not_met"⟩
          else ⟨true, some .UP, "reversion_met"⟩
        else ⟨true, some .UP, "up_price_band"⟩
    | .DOWN =>
      let downInBand : Bool :=
        match ep.down_price_min, ep.down_price_max with
        | some mn, some mx => decide (mn ≤ state.down_px) && decide (state.down_px ≤ mx)
        | _, _ => false
      if !downInBand then ⟨false, none, "down_price_not_in_band"⟩
      else
        let delta5s := features.delta_5s_side_px.getD 0
        let delta5sDown := features.delta_5s_down_px.getD delta5s
        if ep.mode = "momentum" then
          if delta5sDown < ep.momentum_threshold then ⟨false, none, "momentum_not_met"⟩
          else ⟨true, some .DOWN, "momentum_met"⟩
        else if ep.mode = "reversion" then
          if delta5sDown > -ep.momentum_threshold then ⟨false, none, "reversion_not_met"⟩
          else ⟨true, some .DOWN, "reversion_met"⟩
        else ⟨true, some .DOWN, "down_price_band"⟩

/-- `PolicyEngine.sizeForTrade`.  The TS parameter `inventory` is declared
non-optional, but both integrator call sites
(`marketTracker.ts` lines 496 and 834) omit the argument, so at run time it
may be `undefined`: it is embedded as `Option InventoryState`, and the
`TypeError` thrown by `inventory.inv_up_shares` on the conditioning branch is
an `Except.error`. -/
def sizeForTrade (state : TapeState) (_features : Features)
    (sizeParams : Option SizeParams) (side : Side)
    (inventory : Option InventoryState) : Except String ℚ :=
  match sizeParams with
  | none => .ok 1
  | some sp =>
    let sidePx := match side with | .UP => state.up_px | .DOWN => state.down_px
    let binEdges := sp.bin_edges.getD []
    if binEdges.length < 2 then .ok 1
    else
      let priceBucketIndex :=
        match (List.range (binEdges.length - 1)).find? (fun i =>
          let leftEdge := if i = 0 then (-0.001 : ℚ) else binEdges.getD i 0
          let rightEdge := binEdges.getD (i + 1) 0
          decide (leftEdge < sidePx) && decide (sidePx ≤ rightEdge)) with
        | some i => i
        | none => if sidePx ≤ binEdges.getD 0 0 then 0 else binEdges.length - 2
      let priceBucketKey :=
        if priceBucketIndex = 0 then "(-0.001, " ++ jsNumStr (binEdges.getD 1 0) ++ "]"
        else "(" ++ jsNumStr (binEdges.getD priceBucketIndex 0) ++ ", " ++
          jsNumStr (binEdges.getD (priceBucketIndex + 1) 0) ++ "]"
      let conditioningFalsy : Bool :=
        match sp.conditioning_var with
        | none => true
        | some s => s = ""
      if conditioningFalsy then
        let sizeTable1d := sp.size_table_1d.getD []
        match sizeTable1d.lookup priceBucketKey with
        | some v => .ok v
        | none =>
          let sizeTable := sp.size_table.getD []
          match sizeTable.lookup priceBucketKey with
          | some v => .ok v
          | none =>
            let allSizes := sizeTable.map Prod.snd
            if 0 < allSizes.length then
              let sorted := sortBy (fun a b => decide (a ≤ b)) allSizes
              .ok (sorted.getD (sorted.length / 2) 0)
            else .ok 1
      else if sp.conditioning_var = some "inventory_imbalance_ratio" then
        match inventory with
        | none => .error "TypeError: Cannot read properties of undefined (reading inv_up_shares)"
        | some inv =>
          let eps : ℚ := 0.000001
          let imbalanceRatio := inv.inv_up_shares / max inv.inv_down_shares eps
          let thresholds := sp.inventory_bucket_thresholds.getD []
          if thresholds.length < 2 then
            .ok (jsOrQ ((sp.size_table_1d.getD []).lookup priceBucketKey) 1)
          else
            let invBucketFound :=
              match (List.range (thresholds.length - 1)).find?
                (fun i => decide (imbalanceRatio ≤ thresholds.getD (i + 1) 0)) with
              | some i => i
              | none => 0
            let invBucketIndex :=
              if imbalanceRatio > thresholds.getD (thresholds.length - 1) 0 then
                thresholds.length - 2
              else invBucketFound
            let inventoryBucketLabel :=
              jsOrStr ((sp.inventory_buckets.getD []).get? invBucketIndex)
                ("bucket_" ++ toString invBucketIndex)
            let key2d := priceBucketKey ++ "|" ++ inventoryBucketLabel
            let sizeTable := sp.size_table.getD []
            match sizeTable.lookup key2d with
            | some v => .ok v
            | none =>
              let inventoryBuckets := sp.inventory_buckets.getD []
              match inventoryBuckets.findSome?
                (fun invBucket => sizeTable.lookup (priceBucketKey ++ "|" ++ invBucket)) with
              | some v => .ok v
              | none =>
                match (sp.size_table_1d.getD []).lookup priceBucketKey with
                | some v => .ok v
                | none =>
                  let allSizes := sizeTable.map Prod.snd
                  if 0 < allSizes.length then
                    let sorted := sortBy (fun a b => decide (a ≤ b)) allSizes
                    .ok (sorted.getD (sorted.length / 2) 0)
                  else .ok 1
      else
        .ok (jsOrQ ((sp.size_table_1d.getD []).lookup priceBucketKey) 1)

/-- `PolicyEngine.inventoryOkAndRebalance` (the cap-only variant in the
current source: it never flips the side). -/
def inventoryOkAndRebalance (inventory : InventoryState)
    (inventoryParams : Option InventoryParams) (proposedSide : Side) : Option Side :=
  match inventoryParams with
  | none => some proposedSide
  | some ip =>
    let total := inventory.inv_up_shares + inventory.inv_down_shares
    if total ≥ ip.max_total_shares then none
    else if proposedSide = .UP ∧ inventory.inv_up_shares ≥ ip.max_up_shares then none
    else if proposedSide = .DOWN ∧ inventory.inv_down_shares ≥ ip.max_down_shares then none
    else some proposedSide

/-- `PolicyEngine.cadenceOk`. -/
def cadenceOk (lastTradeTs : Option ℚ) (recentTradeTimes : List ℚ)
    (cadenceParams : Option CadenceParams) (currentTs : ℚ) : Bool :=
  match cadenceParams with
  | none => true
  | some cp =>
    let interBlocked : Bool :=
      match lastTradeTs with
      | some t => decide (cp.min_inter_trade_ms > 0) &&
          decide (currentTs - t < cp.min_inter_trade_ms)
      | none => false
    if interBlocked then false
    else
      let window1sStart := currentTs - 1000
      let trades1s := (recentTradeTimes.filter
        (fun ts => decide (ts ≥ window1sStart) && decide (ts ≤ currentTs))).length
      if (trades1s : ℚ) ≥ cp.max_trades_per_sec then false
      else
        let window60sStart := currentTs - 60000
        let trades60s := (recentTradeTimes.filter
          (fun ts => decide (ts ≥ window60sStart) && decide (ts ≤ currentTs))).length
        if (trades60s : ℚ) ≥ cp.max_trades_per_min then false
        else true

/-- `PolicyEngine.inventoryFirstTieBreak` (private helper of side
selection). -/
def inventoryFirstTieBreak (state : TapeState) (inventory : InventoryState) : Side :=
  let total := inventory.inv_up_shares + inventory.inv_down_shares
  let eps : ℚ := 0.000001
  if total < eps then
    if |state.up_px - (0.5 : ℚ)| > |state.down_px - (0.5 : ℚ)| then .UP else .DOWN
  else
    let imbalanceRatio := inventory.inv_up_shares / max inventory.inv_down_shares eps
    if imbalanceRatio > 1 then .DOWN
    else if imbalanceRatio < 1 then .UP
    else if |state.up_px - (0.5 : ℚ)| > |state.down_px - (0.5 : ℚ)| then .UP else .DOWN

/-- `PolicyEngine.selectSideWhenBothValid`. -/
def selectSideWhenBothValid (state : TapeState) (features : Features)
    (inventory : InventoryState) (sideSelectionParams : Option SideSelectionParams)
    (entrySignalUp entrySignalDown : Bool) : Option Side :=
  if !entrySignalUp && !entrySignalDown then none
  else if entrySignalUp && !entrySignalDown then some .UP
  else if entrySignalDown && !entrySignalUp then some .DOWN
  else
    match sideSelectionParams with
    | none => some (inventoryFirstTieBreak state inventory)
    | some ssp =>
      let mode := ssp.mode
      if (mode = "mixed" : Bool) || (match ssp.confidence_gap with
          | some g => decide (g < (0.10 : ℚ))
          | none => false) then
        some (inventoryFirstTieBreak state inventory)
      else if mode = "inventory_driven" then some (inventoryFirstTieBreak state inventory)
      else if mode = "edge_driven" then
        some (if |state.up_px - (0.5 : ℚ)| > |state.down_px - (0.5 : ℚ)| then .UP else .DOWN)
      else if mode = "momentum_driven" then
        let delta5s := features.delta_5s_side_px.getD 0
        if delta5s > (0.001 : ℚ) then some .UP
        else if delta5s < (-0.001 : ℚ) then some .DOWN
        else some (inventoryFirstTieBreak state inventory)
      else if mode = "alternating" then some (inventoryFirstTieBreak state inventory)
      else if mode = "fixed_preference" then some (ssp.preferred_side.getD .UP)
      else some (inventoryFirstTieBreak state inventory)

/-- `PolicyEngine.simulateFillPrice`. -/
def simulateFillPrice (_side : Side) (snapshotSidePx : ℚ)
    (executionParams : Option ExecutionParams) : ℚ :=
  match executionParams with
  | none => snapshotSidePx
  | some ep =>
    if ep.model_type = "snapshot_price" then snapshotSidePx
    else if ep.model_type = "fixed_slippage" then snapshotSidePx + ep.slippage_offset
    else if ep.model_type = "mid_price" then snapshotSidePx + jsOrQ ep.fill_bias_median 0
    else if ep.model_type = "worst_case" then
      snapshotSidePx + jsOrQ ep.fill_bias_p75 (jsOrQ ep.fill_bias_median 0)
    else snapshotSidePx

/-- `PolicyEngine.checkCooldown`: `true` means trading is allowed. -/
def checkCooldown (lastTradeTs : Option ℚ) (currentTs : ℚ) (features : Features)
    (inventory : InventoryState) (cooldownParams : Option CooldownParams) : Bool :=
  match cooldownParams with
  | none => true
  | some cp =>
    let timeBlocked : Bool :=
      cp.has_time_cooldown &&
        (match lastTradeTs with
         | some t => decide ((currentTs - t) / 1000 < cp.time_cooldown_seconds)
         | none => false)
    if timeBlocked then false
    else
      let moveBlocked : Bool :=
        cp.price_move_threshold.isSome &&
          (match lastTradeTs with
           | some t =>
             if (currentTs - t) / 1000 < 5 then
               decide (|jsOrQ features.delta_5s_side_px 0| < cp.price_move_threshold.getD 0)
             else false
           | none => false)
      if moveBlocked then false
      else
        let lockBlocked : Bool :=
          cp.has_inventory_lockout && cp.inventory_lockout_threshold.isSome &&
            (let total := inventory.inv_up_shares + inventory.inv_down_shares
             if 0 < total then
               decide (max (inventory.inv_up_shares / total)
                 (inventory.inv_down_shares / total) >
                 cp.inventory_lockout_threshold.getD 0)
             else false)
        if lockBlocked then false else true

/-- `PolicyEngine.checkRiskLimits`: `true` means trading is allowed. -/
def checkRiskLimits (tradesThisSession : ℚ) (inventory : InventoryState)
    (riskParams : Option RiskParams) : Bool :=
  match riskParams with
  | none => true
  | some rp =>
    let sessionBlocked : Bool :=
      match rp.max_trades_per_session with
      | some m => decide (tradesThisSession ≥ m)
      | none => false
    if sessionBlocked then false
    else
      let total := inventory.inv_up_shares + inventory.inv_down_shares
      let imbBlocked : Bool :=
        if 0 < total then
          decide (max (inventory.inv_up_shares / total)
            (inventory.inv_down_shares / total) > rp.max_imbalance_ratio)
        else false
      if imbBlocked then false
      else if inventory.inv_up_shares > rp.max_exposure_up_shares then false
      else if inventory.inv_down_shares > rp.max_exposure_down_shares then false
      else true

/-- The integrator's per-market last-price snapshot record. -/
structure LastPriceState where
  up_px : ℚ
  down_px : ℚ
  timestamp : ℚ
deriving DecidableEq, Repr

/-- `PolicyEngine.checkDataQuality`: `true` means the tick passes. -/
def checkDataQuality (state : TapeState) (lastPriceState : Option LastPriceState)
    (qualityFilterParams : Option QualityFilterParams) : Bool :=
  match qualityFilterParams with
  | none => true
  | some qp =>
    let deviation := |state.up_px + state.down_px - 1|
    if deviation > qp.max_price_sum_deviation then false
    else
      match lastPriceState with
      | none => true
      | some lp =>
        let timeDiff := (state.timestamp - lp.timestamp) / 1000
        if timeDiff > qp.timestamp_jump_threshold_seconds then false
        else
          let maxGap := max |state.up_px - lp.up_px| |state.down_px - lp.down_px|
          if maxGap > qp.price_gap_threshold then false else true

/-- `PolicyEngine.shouldResetInventory`. -/
def shouldResetInventory (lastActivityTs : Option ℚ) (currentTs : ℚ)
    (resetParams : Option ResetParams) : Bool :=
  match resetParams with
  | none => false
  | some rp =>
    match lastActivityTs with
    | none => rp.resets_on_market_switch
    | some t =>
      if rp.resets_on_inactivity then
        decide ((currentTs - t) / 3600000 > rp.inactivity_threshold_hours)
      else false

/-! ## Parameter loader (`paramLoader.ts`) -/

/-- The normalized (param-type-first) parameter document: each section maps
market keys to that section's per-market parameters.  Association lists keep
the JSON object key order. -/
structure ParameterFile where
  entry_params : List (String × EntryParams)
  size_params : List (String × SizeParams)
  inventory_params : List (String × InventoryParams)
  cadence_params : List (String × CadenceParams)
deriving DecidableEq, Repr

/-- One market's sections in the market-first on-disk layout. -/
structure MarketSection where
  entry_params : Option EntryParams := none
  size_params : Option SizeParams := none
  inventory_params : Option InventoryParams := none
  cadence_params : Option CadenceParams := none
deriving DecidableEq, Repr

/-- A successfully `JSON.parse`d parameter document before format detection:
the four old-format sections (their `per_market` contents) when present at
top level, and the top-level market-first entries. -/
structure RawDoc where
  entry_params : Option (List (String × EntryParams)) := none
  size_params : Option (List (String × SizeParams)) := none
  inventory_params : Option (List (String × InventoryParams)) := none
  cadence_params : Option (List (String × CadenceParams)) := none
  markets : List (String × MarketSection) := []
deriving Repr

/-- The canonical market keys recognised by format detection and
conversion. -/
def canonicalMarketKeys : List String := ["BTC_15m", "ETH_15m", "BTC_1h", "ETH_1h"]

/-- `ParameterLoader.isNewFormat`: some canonical market key at top level and
neither `entry_params` nor `size_params` at top level. -/
def isNewFormat (doc : RawDoc) : Bool :=
  (canonicalMarketKeys.any (fun k => (doc.markets.lookup k).isSome)) &&
  !(doc.entry_params.isSome || doc.size_params.isSome)

/-- `ParameterLoader.convertNewToOldFormat`: keep canonical market keys in
document order and regroup their sections param-type-first. -/
def convertNewToOldFormat (doc : RawDoc) : ParameterFile :=
  let canon := doc.markets.filter (fun mk => canonicalMarketKeys.contains mk.1)
  { entry_params := canon.filterMap (fun mk => mk.2.entry_params.map (fun e => (mk.1, e)))
    size_params := canon.filterMap (fun mk => mk.2.size_params.map (fun e => (mk.1, e)))
    inventory_params :=
      canon.filterMap (fun mk => mk.2.inventory_params.map (fun e => (mk.1, e)))
    cadence_params :=
      canon.filterMap (fun mk => mk.2.cadence_params.map (fun e => (mk.1, e))) }

/-- `ParameterLoader.validateParams` on an old-format document: fill in any
missing section with an empty per-market map. -/
def validateParams (doc : RawDoc) : ParameterFile :=
  { entry_params := doc.entry_params.getD []
    size_params := doc.size_params.getD []
    inventory_params := doc.inventory_params.getD []
    cadence_params := doc.cadence_params.getD [] }

/-- `ParameterLoader.getDefaultParams`. -/
def defaultParams : ParameterFile := ⟨[], [], [], []⟩

/-- What one attempt to read and parse the parameter file can yield.  A
`JSON.parse` exception and any other I/O failure land in `parseError`
(the `catch` block of `loadParams`). -/
inductive LoadInput where
  | fileMissing : LoadInput
  | parseError : LoadInput
  | parsed (doc : RawDoc) (mtime : ℚ) : LoadInput

/-- Mutable fields of the `ParameterLoader` singleton relevant to loading. -/
structure LoaderState where
  params : Option ParameterFile := none
  lastModified : ℚ := 0
deriving DecidableEq, Repr

/-- `ParameterLoader.loadParams`: missing file and parse failure both return
the built-in defaults *without* touching `this.params`; success normalizes,
validates, records the file mtime and stores the snapshot. -/
def loadParams (inp : LoadInput) (st : LoaderState) : LoaderState × ParameterFile :=
  match inp with
  | .fileMissing => (st, defaultParams)
  | .parseError => (st, defaultParams)
  | .parsed doc mtime =>
    let normalized : ParameterFile :=
      if isNewFormat doc then convertNewToOldFormat doc else validateParams doc
    ({ st with lastModified := mtime, params := some normalized }, normalized)

/-- `ParameterLoader.getParams`: loads (and caches) if not already loaded. -/
def getParams (inp : LoadInput) (st : LoaderState) : LoaderState × ParameterFile :=
  match st.params with
  | some p => (st, p)
  | none =>
    let r := loadParams inp st
    ({ r.1 with params := some r.2 }, r.2)

/-- One tick of the `startHotReload` polling `setInterval`: when the file
exists and its mtime is strictly newer than the last observed one, reload
and assign `this.params` to whatever `loadParams` returned.  Listener
exceptions are caught in the source and do not affect the state.  The body
is wrapped in `try`/`catch`, so the tick never throws: totality of this
function is the embedded no-crash guarantee. -/
def pollTick (fileExists : Bool) (mtime : ℚ) (inp : LoadInput)
    (st : LoaderState) : LoaderState :=
  if !fileExists then st
  else if mtime > st.lastModified then
    let r := loadParams inp st
    { r.1 with params := some r.2 }
  else st

/-- `ParameterLoader.normalizeMarketKey`. -/
def normalizeMarketKey (marketKey : String) : String :=
  if jsIncludes marketKey "BTC" && jsIncludes marketKey "15" then "BTC_15m"
  else if jsIncludes marketKey "ETH" && jsIncludes marketKey "15" then "ETH_15m"
  else if jsIncludes marketKey "BTC" &&
      (jsIncludes marketKey "1h" || jsIncludes marketKey "1 hour") then "BTC_1h"
  else if jsIncludes marketKey "ETH" &&
      (jsIncludes marketKey "1h" || jsIncludes marketKey "1 hour") then "ETH_1h"
  else marketKey

/-! ## Policy integrator (`marketTracker.ts`, second `PolicyIntegrator`) -/

/-- The decision record returned by `PolicyIntegrator.shouldTrade`. -/
structure Decision where
  shouldTrade : Bool
  side : Option Side
  shares : ℚ
  reason : String
  decisionId : ℕ
  fillPrice : Option ℚ := none
deriving DecidableEq, Repr

/-- The no-trade decision shape shared by every blocked branch. -/
def noTradeDecision (decisionId : ℕ) (reason : String) : Decision :=
  { shouldTrade := false, side := none, shares := 0, reason := reason
    decisionId := decisionId, fillPrice := none }

/-- `PolicyState` plus the integrator's two extra private maps
(`tradesPerSession`, `lastPriceState`). -/
structure PolicyState where
  priceHistory : SMap (List PriceHistory)
  inventory : SMap InventoryState
  lastTradeTime : SMap ℚ
  recentTradeTimes : SMap (List ℚ)
  decisionIdCounter : ℕ
  tradesPerSession : SMap ℕ
  lastPriceState : SMap LastPriceState

/-- The freshly constructed integrator state. -/
def initialPolicyState : PolicyState :=
  ⟨SMap.empty, SMap.empty, SMap.empty, SMap.empty, 0, SMap.empty, SMap.empty⟩

/-- `maxHistoryLength = 1000`. -/
def maxHistoryLength : ℕ := 1000

/-- `PolicyIntegrator.updatePriceHistory`: append, then drop the oldest entry
when over capacity. -/
def updatePriceHistory (s : PolicyState) (market : String)
    (timestamp upPx downPx : ℚ) : PolicyState :=
  let history := (s.priceHistory market).getD []
  let history := history ++ [⟨timestamp, upPx, downPx⟩]
  let history := if history.length > maxHistoryLength then history.tail else history
  { s with priceHistory := s.priceHistory.set market (some history) }

/-- `PolicyIntegrator.getInventory`: read, inserting a zero inventory on
first access (a state mutation). -/
def getInventory (s : PolicyState) (market : String) : InventoryState × PolicyState :=
  match s.inventory market with
  | some inv => (inv, s)
  | none =>
    let inv : InventoryState := ⟨0, 0, none, none⟩
    (inv, { s with inventory := s.inventory.set market (some inv) })

/-- The tail of `PolicyIntegrator.shouldTrade` after the quality gate and the
snapshot update: features, cooldown, cadence, entry/side selection, risk,
sizing, inventory gate, fill simulation.  The sizing call passes no
inventory argument (source line 834), embedded as `none`; its `TypeError`
propagates as `Except.error` while the state mutations made so far persist
(JS mutates in place before the throw). -/
def shouldTradeRest (s : PolicyState) (decisionId : ℕ) (market : String)
    (timestamp upPx downPx : ℚ) (mp : MarketParams) :
    PolicyState × Except String Decision :=
  let state : TapeState := ⟨timestamp, upPx, downPx, market⟩
  let history := (s.priceHistory market).getD []
  let features := computeFeatures state history
  let lastTradeTs := jsOrNullQ (s.lastTradeTime market)
  let r := getInventory s market
  let inventory := r.1
  let s := r.2
  if mp.cooldown_params.isSome &&
      !checkCooldown lastTradeTs timestamp features inventory mp.cooldown_params then
    (s, .ok (noTradeDecision decisionId "cooldown_blocked"))
  else
    let recentTrades := (s.recentTradeTimes market).getD []
    if !cadenceOk lastTradeTs recentTrades mp.cadence_params timestamp then
      (s, .ok (noTradeDecision decisionId "cadence_blocked"))
    else
      let actualUpSignal : Bool :=
        match mp.entry_params with
        | none => false
        | some ep =>
          match ep.up_price_min, ep.up_price_max with
          | some mn, some mx => decide (mn ≤ state.up_px) && decide (state.up_px ≤ mx)
          | _, _ => false
      let actualDownSignal : Bool :=
        match mp.entry_params with
        | none => false
        | some ep =>
          match ep.down_price_min, ep.down_price_max with
          | some mn, some mx => decide (mn ≤ state.down_px) && decide (state.down_px ≤ mx)
          | _, _ => false
      let eSig := entrySignal state features mp.entry_params
      let selectedSide : Option Side :=
        if actualUpSignal && actualDownSignal && mp.side_selection_params.isSome then
          selectSideWhenBothValid state features inventory mp.side_selection_params
            actualUpSignal actualDownSignal
        else if actualUpSignal then some .UP
        else if actualDownSignal then some .DOWN
        else eSig.side
      if !eSig.should_trade then
        (s, .ok (noTradeDecision decisionId (jsOrStr (some eSig.reason) "no_entry_signal")))
      else
        match selectedSide with
        | none =>
          (s, .ok (noTradeDecision decisionId (jsOrStr (some eSig.reason) "no_entry_signal")))
        | some sel =>
          let tradesThisSession := (s.tradesPerSession market).getD 0
          if mp.risk_params.isSome &&
              !checkRiskLimits (tradesThisSession : ℚ) inventory mp.risk_params then
            (s, .ok (noTradeDecision decisionId "risk_limit_exceeded"))
          else
            match sizeForTrade state features mp.size_params sel none with
            | .error e => (s, .error e)
            | .ok shares =>
              match inventoryOkAndRebalance inventory mp.inventory_params sel with
              | none => (s, .ok (noTradeDecision decisionId "inventory_limit_exceeded"))
              | some finalSide =>
                let snapshotSidePx := match finalSide with | .UP => upPx | .DOWN => downPx
                let fillPrice := simulateFillPrice finalSide snapshotSidePx mp.execution_params
                (s, .ok { shouldTrade := true, side := some finalSide, shares := shares
                          reason := eSig.reason, decisionId := decisionId
                          fillPrice := some fillPrice })

/-- The opening mutations of `PolicyIntegrator.shouldTrade` (lines 700-712):
decision-id bump, inventory/session reset on `shouldResetInventory`, and the
price-history append.  None of these touch `lastPriceState`. -/
def preQualityState (s0 : PolicyState) (market : String)
    (timestamp upPx downPx : ℚ) (mp : MarketParams) : PolicyState :=
  let s := { s0 with decisionIdCounter := s0.decisionIdCounter + 1 }
  let lastActivityTs := jsOrNullQ (s.lastTradeTime market)
  let s :=
    if mp.reset_params.isSome &&
        shouldResetInventory lastActivityTs timestamp mp.reset_params then
      { s with inventory := s.inventory.set market none
               tradesPerSession := s.tradesPerSession.set market none }
    else s
  updatePriceHistory s market timestamp upPx downPx

/-- `PolicyIntegrator.shouldTrade` (the full variant at `marketTracker.ts`
line 693): decision-id bump, reset check, history update, quality gate,
snapshot update, then `shouldTradeRest`. -/
def integratorShouldTrade (s0 : PolicyState) (market : String)
    (timestamp upPx downPx : ℚ) (mp : MarketParams) :
    PolicyState × Except String Decision :=
  let decisionId := s0.decisionIdCounter + 1
  let s := preQualityState s0 market timestamp upPx downPx mp
  let lastPrice := s.lastPriceState market
  if mp.quality_filter_params.isSome &&
      !checkDataQuality ⟨timestamp, upPx, downPx, market⟩ lastPrice
        mp.quality_filter_params then
    (s, .ok (noTradeDecision decisionId "data_quality_filter_failed"))
  else
    let s := { s with lastPriceState :=
      s.lastPriceState.set market (some ⟨upPx, downPx, timestamp⟩) }
    shouldTradeRest s decisionId market timestamp upPx downPx mp

/-! ## Supporting lemmas -/

theorem preQualityState_lastPriceState (s0 : PolicyState) (market : String)
    (ts u d : ℚ) (mp : MarketParams) :
    (preQualityState s0 market ts u d mp).lastPriceState = s0.lastPriceState := by
  unfold preQualityState updatePriceHistory
  dsimp only
  split <;> rfl

theorem preQualityState_counter (s0 : PolicyState) (market : String)
    (ts u d : ℚ) (mp : MarketParams) :
    (preQualityState s0 market ts u d mp).decisionIdCounter =
      s0.decisionIdCounter + 1 := by
  unfold preQualityState updatePriceHistory
  dsimp only
  split <;> rfl

theorem getInventory_snd_lastPriceState (s : PolicyState) (m : String) :
    (getInventory s m).2.lastPriceState = s.lastPriceState := by
  unfold getInventory
  split <;> rfl

theorem getInventory_snd_counter (s : PolicyState) (m : String) :
    (getInventory s m).2.decisionIdCounter = s.decisionIdCounter := by
  unfold getInventory
  split <;> rfl

theorem shouldTradeRest_fst (s : PolicyState) (id : ℕ) (m : String)
    (ts u d : ℚ) (mp : MarketParams) :
    (shouldTradeRest s id m ts u d mp).1 = (getInventory s m).2 := by
  unfold shouldTradeRest
  dsimp only
  repeat' split
  all_goals rfl

theorem shouldTradeRest_lastPriceState (s : PolicyState) (id : ℕ) (m : String)
    (ts u d : ℚ) (mp : MarketParams) :
    (shouldTradeRest s id m ts u d mp).1.lastPriceState = s.lastPriceState := by
  rw [shouldTradeRest_fst, getInventory_snd_lastPriceState]

theorem shouldTradeRest_counter (s : PolicyState) (id : ℕ) (m : String)
    (ts u d : ℚ) (mp : MarketParams) :
    (shouldTradeRest s id m ts u d mp).1.decisionIdCounter = s.decisionIdCounter := by
  rw [shouldTradeRest_fst, getInventory_snd_counter]

theorem shouldTradeRest_ok_decisionId (s : PolicyState) (id : ℕ) (m : String)
    (ts u d : ℚ) (mp : MarketParams) (dec : Decision)
    (h : (shouldTradeRest s id m ts u d mp).2 = .ok dec) : dec.decisionId = id := by
  unfold shouldTradeRest at h
  dsimp only at h
  repeat' split at h
  all_goals first
    | exact Except.noConfusion h
    | (injection h with h2; exact h2 ▸ rfl)

theorem integratorShouldTrade_counter (s : PolicyState) (market : String)
    (ts u d : ℚ) (mp : MarketParams) :
    (integratorShouldTrade s market ts u d mp).1.decisionIdCounter =
      s.decisionIdCounter + 1 := by
  unfold integratorShouldTrade
  dsimp only
  repeat' split
  all_goals simp [shouldTradeRest_counter, preQualityState_counter]

theorem integratorShouldTrade_ok_decisionId (s : PolicyState) (market : String)
    (ts u d : ℚ) (mp : MarketParams) (dec : Decision)
    (h : (integratorShouldTrade s market ts u d mp).2 = .ok dec) :
    dec.decisionId = s.decisionIdCounter + 1 := by
  unfold integratorShouldTrade at h
  dsimp only at h
  repeat' split at h
  all_goals first
    | (injection h with h2; exact h2 ▸ rfl)
    | exact shouldTradeRest_ok_decisionId _ _ _ _ _ _ _ _ h

/-! ## Concrete instances used by counterexamples and witnesses -/

/-- A market with no configured parameter sections. -/
def mpEmpty : MarketParams := {}

/-- First of two back-to-back identical ticks from the fresh integrator. -/
def tick1 : PolicyState × Except String Decision :=
  integratorShouldTrade initialPolicyState "BTC_15m" 1000 0.5 0.5 mpEmpty

/-- Second tick, same arguments, state as left by the first tick. -/
def tick2 : PolicyState × Except String Decision :=
  integratorShouldTrade tick1.1 "BTC_15m" 1000 0.5 0.5 mpEmpty

/-! ## C6 -/

/-- C6 (counterexample): running the integrator's `shouldTrade` twice with
identical arguments and no external state change does *not* return identical
decisions: the two decisions differ in `decisionId` (1 vs 2). -/
theorem C6_counterexample :
    tick1.2 = .ok (noTradeDecision 1 "no_entry_params") ∧
    tick2.2 = .ok (noTradeDecision 2 "no_entry_params") ∧
    noTradeDecision 1 "no_entry_params" ≠ noTradeDecision 2 "no_entry_params" := by
  decide

/-- C6 (amended): `shouldTrade` is a deterministic function of the integrator
state and its arguments, but each call mutates the state — at minimum
incrementing the decision-id counter — so of two successive calls with the
same arguments the second decision's `decisionId` always exceeds the first's
by one, and the two decisions are never equal. -/
theorem C6_second_call_decisionId_differs (s : PolicyState) (market : String)
    (ts u d : ℚ) (mp : MarketParams) (d1 d2 : Decision)
    (h1 : (integratorShouldTrade s market ts u d mp).2 = .ok d1)
    (h2 : (integratorShouldTrade (integratorShouldTrade s market ts u d mp).1
      market ts u d mp).2 = .ok d2) :
    d2.decisionId = d1.decisionId + 1 ∧ d1 ≠ d2 := by
  have e1 := integratorShouldTrade_ok_decisionId _ _ _ _ _ _ _ h1
  have e2 := integratorShouldTrade_ok_decisionId _ _ _ _ _ _ _ h2
  rw [integratorShouldTrade_counter] at e2
  refine ⟨by omega, fun hEq => ?_⟩
  rw [hEq] at e1
  omega

/-- C6 (witness): the amended theorem applied to the concrete double tick. -/
theorem C6_witness :
    (noTradeDecision 2 "no_entry_params").decisionId =
      (noTradeDecision 1 "no_entry_params").decisionId + 1 ∧
    noTradeDecision 1 "no_entry_params" ≠ noTradeDecision 2 "no_entry_params" :=
  C6_second_call_decisionId_differs initialPolicyState "BTC_15m" 1000 0.5 0.5
    mpEmpty _ _ (by decide) (by decide)

/-! ## C4 -/

/-- Quality-filter parameters used by the C4 counterexample. -/
def mpQF : MarketParams := { quality_filter_params := some ⟨0.1, 60, 0.2⟩ }

/-- A tick whose price sum 1.8 deviates by 0.8 > 0.1, so the quality filter
rejects it. -/
def qualityRejectTick : PolicyState × Except String Decision :=
  integratorShouldTrade initialPolicyState "M" 1000 0.9 0.9 mpQF

/-- C4 (counterexample): on a tick rejected with reason
`data_quality_filter_failed` the last-price snapshot is *not* updated to the
tick's `(up, down, timestamp)`: it stays at its previous value (`none`
here). -/
theorem C4_counterexample :
    qualityRejectTick.2 = .ok (noTradeDecision 1 "data_quality_filter_failed") ∧
    qualityRejectTick.1.lastPriceState "M" = none ∧
    (none : Option LastPriceState) ≠ some ⟨0.9, 0.9, 1000⟩ := by
  decide

/-- C4 (amended): the integrator updates the last-price snapshot only when
the quality gate does not reject the tick.  On a rejected tick the whole
snapshot map is left unchanged and the decision is the
`data_quality_filter_failed` no-trade; on every other tick the snapshot for
the market becomes the tick's `(up, down, timestamp)`. -/
theorem C4_snapshot_update_characterization (s : PolicyState) (market : String)
    (ts u d : ℚ) (mp : MarketParams) :
    ((mp.quality_filter_params.isSome = true ∧
        checkDataQuality ⟨ts, u, d, market⟩ (s.lastPriceState market)
          mp.quality_filter_params = false) →
      (integratorShouldTrade s market ts u d mp).1.lastPriceState =
        s.lastPriceState ∧
      (integratorShouldTrade s market ts u d mp).2 =
        .ok (noTradeDecision (s.decisionIdCounter + 1) "data_quality_filter_failed")) ∧
    (¬(mp.quality_filter_params.isSome = true ∧
        checkDataQuality ⟨ts, u, d, market⟩ (s.lastPriceState market)
          mp.quality_filter_params = false) →
      (integratorShouldTrade s market ts u d mp).1.lastPriceState market =
        some ⟨u, d, ts⟩) := by
  constructor
  · rintro ⟨hq, hcd⟩
    unfold integratorShouldTrade
    dsimp only
    simp [preQualityState_lastPriceState, hq, hcd]
  · intro hng
    have hcond : (mp.quality_filter_params.isSome &&
        !checkDataQuality ⟨ts, u, d, market⟩ (s.lastPriceState market)
          mp.quality_filter_params) = false := by
      cases h : mp.quality_filter_params.isSome with
      | false => simp [h]
      | true =>
        cases h2 : checkDataQuality ⟨ts, u, d, market⟩
            (s.lastPriceState market) mp.quality_filter_params with
        | false => exact absurd ⟨h, h2⟩ hng
        | true => simp [h2]
    unfold integratorShouldTrade
    dsimp only
    rw [preQualityState_lastPriceState]
    simp only [hcond, Bool.false_eq_true, if_false]
    rw [shouldTradeRest_lastPriceState]
    simp [SMap.set]

/-- C4 (witness): with no quality-filter parameters configured the snapshot
is updated to the tick values. -/
theorem C4_witness :
    (integratorShouldTrade initialPolicyState "BTC_15m" 1000 0.5 0.5
      mpEmpty).1.lastPriceState "BTC_15m" = some ⟨0.5, 0.5, 1000⟩ :=
  (C4_snapshot_update_characterization initialPolicyState "BTC_15m" 1000 0.5 0.5
    mpEmpty).2 (by decide)

/-! ## C3 -/

/-- The fixed `TypeError` message modelling the dereference of an undefined
`inventory` inside `sizeForTrade`. -/
def undefinedInventoryError : String :=
  "TypeError: Cannot read properties of undefined (reading inv_up_shares)"

/-- With inventory-imbalance conditioning configured and at least two bin
edges, `sizeForTrade` called without an inventory (as both integrator call
sites do) reaches `inventory.inv_up_shares` and throws. -/
theorem sizeForTrade_undefined_inventory_error (st : TapeState) (ft : Features)
    (sp : SizeParams) (side : Side)
    (hcv : sp.conditioning_var = some "inventory_imbalance_ratio")
    (hbe : 2 ≤ (sp.bin_edges.getD []).length) :
    sizeForTrade st ft (some sp) side none = .error undefinedInventoryError := by
  unfold sizeForTrade
  dsimp only
  rw [hcv]
  rw [if_neg (show ¬ ((sp.bin_edges.getD []).length < 2) by omega)]
  dsimp only
  rw [if_neg (show ¬ ((decide (("inventory_imbalance_ratio" : String) = "")) = true) by decide)]
  rw [if_pos rfl]
  rfl

/-- Entry parameters with a full-width UP band, used by C3's runs. -/
def epBand : EntryParams :=
  { up_price_min := some 0, up_price_max := some 1
    down_price_min := none, down_price_max := none
    momentum_window_s := 5, momentum_threshold := 0.01, mode := "none" }

/-- Size parameters with inventory conditioning and valid bin edges. -/
def spCond : SizeParams :=
  { bin_edges := some [0, 0.5, 1]
    size_table := some [("(0, 0.5]|bucket_0", 5)]
    conditioning_var := some "inventory_imbalance_ratio"
    inventory_bucket_thresholds := some [0, 1, 2]
    inventory_buckets := some ["bucket_0", "bucket_1"] }

/-- Market parameters of a conditioned market with valid bin edges. -/
def mpC3 : MarketParams := { entry_params := some epBand, size_params := some spCond }

/-- Size parameters with inventory conditioning and two-plus thresholds but
an *empty* `bin_edges` array. -/
def spNoBins : SizeParams :=
  { bin_edges := some []
    size_table := some [("(0, 0.5]|bucket_0", 5)]
    conditioning_var := some "inventory_imbalance_ratio"
    inventory_bucket_thresholds := some [0, 1, 2]
    inventory_buckets := some ["bucket_0", "bucket_1"] }

/-- Market parameters of a conditioned market with empty bin edges. -/
def mpC3cx : MarketParams := { entry_params := some epBand, size_params := some spNoBins }

/-- A tick on the conditioned market with empty bin edges. -/
def conditionedNoBinsTick : PolicyState × Except String Decision :=
  integratorShouldTrade initialPolicyState "M" 1000 0.5 0.5 mpC3cx

/-- C3 (counterexample): a market whose `size_params` has
`conditioning_var = "inventory_imbalance_ratio"` and three
`inventory_bucket_thresholds` — but an empty `bin_edges` — completes a
decision tick without any runtime error and even emits a trade of the
default size 1, so the claim's universal statement fails. -/
theorem C3_counterexample :
    mpC3cx.size_params = some spNoBins ∧
    spNoBins.conditioning_var = some "inventory_imbalance_ratio" ∧
    2 ≤ (spNoBins.inventory_bucket_thresholds.getD []).length ∧
    conditionedNoBinsTick.2 = .ok ⟨true, some .UP, 1, "up_price_band", 1, some 0.5⟩ := by
  decide

/-- C3 (amended): for a market with inventory-imbalance conditioning, at
least two inventory-bucket thresholds *and at least two bin edges* (so the
conditioning branch of the sizing code is reached), the integrator's sizing
call — made without the inventory argument — always throws, and therefore a
decision tick never completes with a successful trade: it either ends in a
runtime error or in a no-trade decision from an earlier gate. -/
theorem C3_conditioned_sizing_never_trades (s : PolicyState) (market : String)
    (ts u d : ℚ) (mp : MarketParams) (sp : SizeParams)
    (hsp : mp.size_params = some sp)
    (hcv : sp.conditioning_var = some "inventory_imbalance_ratio")
    (_hth : 2 ≤ (sp.inventory_bucket_thresholds.getD []).length)
    (hbe : 2 ≤ (sp.bin_edges.getD []).length) :
    (∀ (st : TapeState) (ft : Features) (side : Side),
      sizeForTrade st ft mp.size_params side none = .error undefinedInventoryError) ∧
    ((∃ e, (integratorShouldTrade s market ts u d mp).2 = .error e) ∨
      (∃ dec, (integratorShouldTrade s market ts u d mp).2 = .ok dec ∧
        dec.shouldTrade = false)) := by
  have hsz : ∀ (st : TapeState) (ft : Features) (side : Side),
      sizeForTrade st ft mp.size_params side none = .error undefinedInventoryError := by
    intro st ft side
    rw [hsp]
    exact sizeForTrade_undefined_inventory_error st ft sp side hcv hbe
  refine ⟨hsz, ?_⟩
  unfold integratorShouldTrade
  dsimp only
  split
  · exact Or.inr ⟨_, rfl, rfl⟩
  · unfold shouldTradeRest
    dsimp only
    simp only [hsz]
    repeat' split
    all_goals first
      | exact Or.inl ⟨_, rfl⟩
      | exact Or.inr ⟨_, rfl, rfl⟩

/-- C3 (witness): the amended theorem at the concrete conditioned market
with valid bin edges (where the tick indeed errors). -/
theorem C3_witness :
    (∃ e, (integratorShouldTrade initialPolicyState "M" 1000 0.5 0.5 mpC3).2 =
      .error e) ∨
    (∃ dec, (integratorShouldTrade initialPolicyState "M" 1000 0.5 0.5 mpC3).2 =
      .ok dec ∧ dec.shouldTrade = false) :=
  (C3_conditioned_sizing_never_trades initialPolicyState "M" 1000 0.5 0.5 mpC3
    spCond rfl rfl (by decide) (by decide)).2

/-! ## C7 -/

/-- C7 (counterexample): an out-of-range `up_price` (2, not clamped) gives
`distance_from_50 = 1.5`, outside `[0, 0.5]`. -/
theorem C7_counterexample :
    (computeFeatures ⟨0, 2, -1, "M"⟩ []).distance_from_50 = 1.5 ∧
    ¬ ((1.5 : ℚ) ≤ 0.5) := by
  decide

/-- C7 (amended): for tape states whose `up_price` lies in `[0, 1]` (the
documented input range), `distance_from_50` lies in `[0, 0.5]`; out-of-range
prices are not clamped and can exceed the bound. -/
theorem C7_distance_from_50_bounded (st : TapeState) (hist : List PriceHistory)
    (h0 : 0 ≤ st.up_px) (h1 : st.up_px ≤ 1) :
    0 ≤ (computeFeatures st hist).distance_from_50 ∧
    (computeFeatures st hist).distance_from_50 ≤ 0.5 := by
  have hd : (computeFeatures st hist).distance_from_50 = |st.up_px - 0.5| := by
    unfold computeFeatures
    dsimp only
    split <;> rfl
  have h05 : (0.5 : ℚ) = 1 / 2 := by norm_num
  rw [hd, h05]
  refine ⟨abs_nonneg _, abs_le.mpr ⟨by linarith, by linarith⟩⟩

/-- C7 (witness): the amended bound at an in-range price. -/
theorem C7_witness :
    0 ≤ (computeFeatures ⟨1000, 0.5, 0.5, "M"⟩ []).distance_from_50 ∧
    (computeFeatures ⟨1000, 0.5, 0.5, "M"⟩ []).distance_from_50 ≤ 0.5 :=
  C7_distance_from_50_bounded ⟨1000, 0.5, 0.5, "M"⟩ [] (by decide) (by decide)

/-! ## C5 -/

/-- The size parameters of the spec's inventory-conditioning scenario:
scenario 1's `bin_edges` with the 2-D `size_table` keyed on the labels
`(0, 0.5]`/`(0.5, 1]`. -/
def spC5 : SizeParams :=
  { bin_edges := some [0, 0.2, 0.4, 0.6, 0.8, 1]
    size_table := some [("(0, 0.5]|bucket_0", 5), ("(0, 0.5]|bucket_1", 15),
      ("(0.5, 1]|bucket_0", 10), ("(0.5, 1]|bucket_1", 20)]
    conditioning_var := some "inventory_imbalance_ratio"
    inventory_bucket_thresholds := some [0, 1, 2]
    inventory_buckets := some ["bucket_0", "bucket_1"] }

/-- The scenario's tape state: `up = 0.3`. -/
def stC5 : TapeState := ⟨1000, 0.3, 0.7, "BTC_15m"⟩

/-- C5 (counterexample): with the scenario's literal inputs the first case
(`inv_up = 50`, `inv_down = 100`) does not return 5. -/
theorem C5_counterexample :
    sizeForTrade stC5 (computeFeatures stC5 []) (some spC5) .UP
      (some ⟨50, 100, none, none⟩) ≠ .ok 5 := by
  decide

/-- C5 (amended): with those inputs the price bucket for `up = 0.3` under
`bin_edges = [0, 0.2, 0.4, 0.6, 0.8, 1]` is labelled `(0.2, 0.4]`, which
matches no key of the scenario's `size_table`, so both inventory cases fall
through to the median-of-table fallback and return 15. -/
theorem C5_both_inventory_cases_return_15 :
    sizeForTrade stC5 (computeFeatures stC5 []) (some spC5) .UP
      (some ⟨50, 100, none, none⟩) = .ok 15 ∧
    sizeForTrade stC5 (computeFeatures stC5 []) (some spC5) .UP
      (some ⟨100, 50, none, none⟩) = .ok 15 := by
  decide

/-! ## C1 -/

/-- Entry parameters with the UP band `[0.4, 0.6]`. -/
def epC1 : EntryParams :=
  { up_price_min := some 0.4, up_price_max := some 0.6
    down_price_min := none, down_price_max := none
    momentum_window_s := 5, momentum_threshold := 0.01, mode := "none" }

/-- Tape state with `up = 0.9`, outside the UP band. -/
def stC1 : TapeState := ⟨1000, 0.9, 0.1, "BTC_15m"⟩

/-- C1 (counterexample): with both UP band bounds non-null and the UP price
0.9 strictly above the band maximum 0.6, `entrySignal` still fires an UP
signal with reason `up_price_band`. -/
theorem C1_counterexample :
    entrySignal stC1 (computeFeatures stC1 []) (some epC1) =
      ⟨true, some .UP, "up_price_band"⟩ ∧
    epC1.up_price_min = some 0.4 ∧ epC1.up_price_max = some 0.6 ∧
    ¬ (stC1.up_px ≤ 0.6) := by
  decide

/-- C1 (amended): because `IGNORE_ENTRY_BANDS = true`, `entrySignal` never
enforces the price bands (with `mode = 'none'` it unconditionally emits UP
with reason `up_price_band`); the per-side `checkSideEntry`, by contrast,
emits a side's signal only when that side's band bounds are both non-null
and contain the side's price inclusively. -/
theorem C1_bands_bypassed_and_enforced :
    (∀ (st : TapeState) (ft : Features) (ep : EntryParams), ep.mode = "none" →
      entrySignal st ft (some ep) = ⟨true, some .UP, "up_price_band"⟩) ∧
    (∀ (st : TapeState) (ft : Features) (ep : EntryParams),
      (checkSideEntry st ft (some ep) .UP).should_trade = true →
      ∃ mn mx, ep.up_price_min = some mn ∧ ep.up_price_max = some mx ∧
        mn ≤ st.up_px ∧ st.up_px ≤ mx) ∧
    (∀ (st : TapeState) (ft : Features) (ep : EntryParams),
      (checkSideEntry st ft (some ep) .DOWN).should_trade = true →
      ∃ mn mx, ep.down_price_min = some mn ∧ ep.down_price_max = some mx ∧
        mn ≤ st.down_px ∧ st.down_px ≤ mx) := by
  refine ⟨?_, ?_, ?_⟩
  · intro st ft ep hmode
    unfold entrySignal
    dsimp only
    rw [hmode]
    rfl
  · intro st ft ep h
    unfold checkSideEntry at h
    dsimp only at h
    cases hmn : ep.up_price_min with
    | none =>
      rw [hmn] at h
      simp at h
    | some mn =>
      cases hmx : ep.up_price_max with
      | none =>
        rw [hmn, hmx] at h
        simp at h
      | some mx =>
        rw [hmn, hmx] at h
        dsimp only at h
        rcases Bool.eq_false_or_eq_true
          (decide (mn ≤ st.up_px) && decide (st.up_px ≤ mx)) with hb | hb
        · rw [Bool.and_eq_true, decide_eq_true_eq, decide_eq_true_eq] at hb
          exact ⟨mn, mx, rfl, rfl, hb.1, hb.2⟩
        · rw [hb] at h
          simp at h
  · intro st ft ep h
    unfold checkSideEntry at h
    dsimp only at h
    cases hmn : ep.down_price_min with
    | none =>
      rw [hmn] at h
      simp at h
    | some mn =>
      cases hmx : ep.down_price_max with
      | none =>
        rw [hmn, hmx] at h
        simp at h
      | some mx =>
        rw [hmn, hmx] at h
        dsimp only at h
        rcases Bool.eq_false_or_eq_true
          (decide (mn ≤ st.down_px) && decide (st.down_px ≤ mx)) with hb | hb
        · rw [Bool.and_eq_true, decide_eq_true_eq, decide_eq_true_eq] at hb
          exact ⟨mn, mx, rfl, rfl, hb.1, hb.2⟩
        · rw [hb] at h
          simp at h

/-- C1 (witness): `checkSideEntry` fired at `up = 0.5` inside the band
`[0.4, 0.6]`, so the band bounds exist and contain the price. -/
theorem C1_witness :
    ∃ mn mx, epC1.up_price_min = some mn ∧ epC1.up_price_max = some mx ∧
      mn ≤ (⟨1000, 0.5, 0.5, "BTC_15m"⟩ : TapeState).up_px ∧
      (⟨1000, 0.5, 0.5, "BTC_15m"⟩ : TapeState).up_px ≤ mx :=
  C1_bands_bypassed_and_enforced.2.1 ⟨1000, 0.5, 0.5, "BTC_15m"⟩
    (computeFeatures ⟨1000, 0.5, 0.5, "BTC_15m"⟩ []) epC1 (by decide)

/-! ## C9 -/

/-- C9: full characterization of `inventoryOkAndRebalance` with parameters
present: null at the total cap, null at the proposed side's cap, otherwise
the proposed side unchanged — and never the opposite side. -/
theorem C9_inventory_gate_characterization (inv : InventoryState)
    (ip : InventoryParams) (side : Side) :
    (ip.max_total_shares ≤ inv.inv_up_shares + inv.inv_down_shares →
      inventoryOkAndRebalance inv (some ip) side = none) ∧
    (side = .UP → ip.max_up_shares ≤ inv.inv_up_shares →
      inventoryOkAndRebalance inv (some ip) side = none) ∧
    (side = .DOWN → ip.max_down_shares ≤ inv.inv_down_shares →
      inventoryOkAndRebalance inv (some ip) side = none) ∧
    (inv.inv_up_shares + inv.inv_down_shares < ip.max_total_shares →
      (side = .UP → inv.inv_up_shares < ip.max_up_shares) →
      (side = .DOWN → inv.inv_down_shares < ip.max_down_shares) →
      inventoryOkAndRebalance inv (some ip) side = some side) ∧
    (inventoryOkAndRebalance inv (some ip) side = none ∨
      inventoryOkAndRebalance inv (some ip) side = some side) := by
  unfold inventoryOkAndRebalance
  dsimp only
  refine ⟨?_, ?_, ?_, ?_, ?_⟩
  · intro htot
    rw [if_pos htot]
  · intro hs hcap
    by_cases h1 : inv.inv_up_shares + inv.inv_down_shares ≥ ip.max_total_shares
    · rw [if_pos h1]
    · rw [if_neg h1, if_pos ⟨hs, hcap⟩]
  · intro hs hcap
    by_cases h1 : inv.inv_up_shares + inv.inv_down_shares ≥ ip.max_total_shares
    · rw [if_pos h1]
    · rw [if_neg h1]
      by_cases h2 : side = Side.UP ∧ inv.inv_up_shares ≥ ip.max_up_shares
      · rw [if_pos h2]
      · rw [if_neg h2, if_pos ⟨hs, hcap⟩]
  · intro htot hup hdown
    rw [if_neg (not_le.mpr htot)]
    rw [if_neg (fun hc => absurd hc.2 (not_le.mpr (hup hc.1)))]
    rw [if_neg (fun hc => absurd hc.2 (not_le.mpr (hdown hc.1)))]
  · by_cases h1 : inv.inv_up_shares + inv.inv_down_shares ≥ ip.max_total_shares
    · rw [if_pos h1]
      exact Or.inl rfl
    · rw [if_neg h1]
      by_cases h2 : side = Side.UP ∧ inv.inv_up_shares ≥ ip.max_up_shares
      · rw [if_pos h2]
        exact Or.inl rfl
      · rw [if_neg h2]
        by_cases h3 : side = Side.DOWN ∧ inv.inv_down_shares ≥ ip.max_down_shares
        · rw [if_pos h3]
          exact Or.inl rfl
        · rw [if_neg h3]
          exact Or.inr rfl

/-- The inventory parameters of the spec's inventory-cap scenario. -/
def ipC9 : InventoryParams := ⟨0.6, 100, 100, 50⟩

/-- C9 (witness): `max_total_shares = 50`, `inv_up = 30`, `inv_down = 25`
gives null for either proposed side. -/
theorem C9_witness :
    inventoryOkAndRebalance ⟨30, 25, none, none⟩ (some ipC9) .UP = none ∧
    inventoryOkAndRebalance ⟨30, 25, none, none⟩ (some ipC9) .DOWN = none :=
  ⟨(C9_inventory_gate_characterization ⟨30, 25, none, none⟩ ipC9 .UP).1 (by decide),
   (C9_inventory_gate_characterization ⟨30, 25, none, none⟩ ipC9 .DOWN).1 (by decide)⟩

/-! ## C10 -/

/-- C10: `cadenceOk` blocks exactly on the three conditions of the spec, and
with `min_inter_trade_ms = 0` the inter-trade check never contributes. -/
theorem C10_cadenceOk_blocks_iff (last : Option ℚ) (recent : List ℚ)
    (cp : CadenceParams) (now : ℚ) :
    (cadenceOk last recent (some cp) now = false ↔
      (∃ t, last = some t ∧ cp.min_inter_trade_ms > 0 ∧
        now - t < cp.min_inter_trade_ms) ∨
      cp.max_trades_per_sec ≤ ((recent.filter
        (fun ts => decide (ts ≥ now - 1000) && decide (ts ≤ now))).length : ℚ) ∨
      cp.max_trades_per_min ≤ ((recent.filter
        (fun ts => decide (ts ≥ now - 60000) && decide (ts ≤ now))).length : ℚ)) ∧
    (cp.min_inter_trade_ms = 0 →
      (cadenceOk last recent (some cp) now = false ↔
        cp.max_trades_per_sec ≤ ((recent.filter
          (fun ts => decide (ts ≥ now - 1000) && decide (ts ≤ now))).length : ℚ) ∨
        cp.max_trades_per_min ≤ ((recent.filter
          (fun ts => decide (ts ≥ now - 60000) && decide (ts ≤ now))).length : ℚ))) := by
  have main : cadenceOk last recent (some cp) now = false ↔
      (∃ t, last = some t ∧ cp.min_inter_trade_ms > 0 ∧
        now - t < cp.min_inter_trade_ms) ∨
      cp.max_trades_per_sec ≤ ((recent.filter
        (fun ts => decide (ts ≥ now - 1000) && decide (ts ≤ now))).length : ℚ) ∨
      cp.max_trades_per_min ≤ ((recent.filter
        (fun ts => decide (ts ≥ now - 60000) && decide (ts ≤ now))).length : ℚ) := by
    unfold cadenceOk
    dsimp only
    have tailCase : ∀ (noInter : (∃ t, last = some t ∧ cp.min_inter_trade_ms > 0 ∧
          now - t < cp.min_inter_trade_ms) → False),
        ((if ((recent.filter (fun ts => decide (ts ≥ now - 1000) &&
              decide (ts ≤ now))).length : ℚ) ≥ cp.max_trades_per_sec then false
          else if ((recent.filter (fun ts => decide (ts ≥ now - 60000) &&
              decide (ts ≤ now))).length : ℚ) ≥ cp.max_trades_per_min then false
          else true) = false ↔
        (∃ t, last = some t ∧ cp.min_inter_trade_ms > 0 ∧
          now - t < cp.min_inter_trade_ms) ∨
        cp.max_trades_per_sec ≤ ((recent.filter
          (fun ts => decide (ts ≥ now - 1000) && decide (ts ≤ now))).length : ℚ) ∨
        cp.max_trades_per_min ≤ ((recent.filter
          (fun ts => decide (ts ≥ now - 60000) && decide (ts ≤ now))).length : ℚ)) := by
      intro noInter
      by_cases h1 : ((recent.filter (fun ts => decide (ts ≥ now - 1000) &&
          decide (ts ≤ now))).length : ℚ) ≥ cp.max_trades_per_sec
      · rw [if_pos h1]
        exact iff_of_true rfl (Or.inr (Or.inl h1))
      · rw [if_neg h1]
        by_cases h2 : ((recent.filter (fun ts => decide (ts ≥ now - 60000) &&
            decide (ts ≤ now))).length : ℚ) ≥ cp.max_trades_per_min
        · rw [if_pos h2]
          exact iff_of_true rfl (Or.inr (Or.inr h2))
        · rw [if_neg h2]
          refine iff_of_false (by simp) ?_
          rintro (hinter | hc | hc)
          · exact noInter hinter
          · exact h1 hc
          · exact h2 hc
    cases last with
    | none =>
      dsimp only
      rw [if_neg (show ¬ (false = true) by simp)]
      exact tailCase (fun ⟨t, ht, _⟩ => Option.noConfusion ht)
    | some t =>
      dsimp only
      by_cases hmin : cp.min_inter_trade_ms > 0
      · by_cases hlt : now - t < cp.min_inter_trade_ms
        · have hcond : (decide (cp.min_inter_trade_ms > 0) &&
              decide (now - t < cp.min_inter_trade_ms)) = true := by
            simp [hmin, hlt]
          rw [if_pos hcond]
          exact iff_of_true rfl (Or.inl ⟨t, rfl, hmin, hlt⟩)
        · have hcond : ¬ ((decide (cp.min_inter_trade_ms > 0) &&
              decide (now - t < cp.min_inter_trade_ms)) = true) := by
            simp [hlt]
          rw [if_neg hcond]
          refine tailCase ?_
          rintro ⟨t2, ht2, _, hlt2⟩
          cases Option.some.inj ht2
          exact hlt hlt2
      · have hcond : ¬ ((decide (cp.min_inter_trade_ms > 0) &&
            decide (now - t < cp.min_inter_trade_ms)) = true) := by
          simp [hmin]
        rw [if_neg hcond]
        refine tailCase ?_
        rintro ⟨t2, ht2, hpos, _⟩
        exact hmin hpos
  refine ⟨main, fun h0 => main.trans ⟨?_, ?_⟩⟩
  · rintro (⟨t, ht, hpos, _⟩ | h | h)
    · rw [h0] at hpos
      exact absurd hpos (lt_irrefl 0)
    · exact Or.inl h
    · exact Or.inr h
  · rintro (h | h)
    · exact Or.inr (Or.inl h)
    · exact Or.inr (Or.inr h)

/-- C10 (witness): the spec's cadence-block scenario
(`min_inter_trade_ms = 2000`, `last_trade_ts = 500`, `now = 1000`) blocks. -/
theorem C10_witness :
    cadenceOk (some 500) [] (some ⟨2000, 2500, 5000, 10, 100⟩) 1000 = false :=
  (C10_cadenceOk_blocks_iff (some 500) [] ⟨2000, 2500, 5000, 10, 100⟩ 1000).1.mpr
    (Or.inl ⟨500, rfl, by decide, by decide⟩)

/-! ## C2 -/

/-- A non-default parameter snapshot (one market with entry parameters). -/
def prevParams : ParameterFile :=
  { entry_params := [("BTC_15m", epBand)], size_params := []
    inventory_params := [], cadence_params := [] }

/-- C2 (counterexample): before the reload, `getParams` serves `prevParams`;
a poll tick that sees a newer mtime but fails to parse replaces the active
snapshot with the built-in defaults, so `getParams` afterwards returns the
defaults, not the previous snapshot. -/
theorem C2_counterexample :
    (getParams .parseError ⟨some prevParams, 5⟩).2 = prevParams ∧
    (getParams .parseError (pollTick true 10 .parseError ⟨some prevParams, 5⟩)).2 =
      defaultParams ∧
    defaultParams ≠ prevParams := by
  decide

/-- C2 (amended): when a poll tick observes a newer file but the read or
parse fails, the loader installs the built-in default (empty per-market)
snapshot in place of the previous one, leaves `lastModified` unchanged, and
`getParams` then serves the defaults; the tick itself never throws (the
embedded `pollTick` is a total function mirroring the source's
`try`/`catch`). -/
theorem C2_failed_reload_installs_defaults (st : LoaderState) (mtime : ℚ)
    (h : mtime > st.lastModified) :
    pollTick true mtime .parseError st = { st with params := some defaultParams } ∧
    (getParams .parseError (pollTick true mtime .parseError st)).2 = defaultParams := by
  have hp : pollTick true mtime .parseError st =
      { st with params := some defaultParams } := by
    unfold pollTick loadParams
    dsimp only
    rw [if_neg (show ¬ ((!true) = true) by simp), if_pos h]
  refine ⟨hp, ?_⟩
  rw [hp]
  rfl

/-- C2 (witness): the amended behaviour at the concrete pre-reload state. -/
theorem C2_witness :
    pollTick true 10 .parseError ⟨some prevParams, 5⟩ =
      { params := some defaultParams, lastModified := 5 } ∧
    (getParams .parseError (pollTick true 10 .parseError ⟨some prevParams, 5⟩)).2 =
      defaultParams :=
  C2_failed_reload_installs_defaults ⟨some prevParams, 5⟩ 10 (by decide)

/-! ## C8 -/

/-- C8 (counterexample): lowercase `bitcoin` with `15` is not recognised —
the input passes through verbatim instead of becoming `BTC_15m`, so the
matching is not case-insensitive and `bitcoin` is not matched at all. -/
theorem C8_counterexample :
    normalizeMarketKey "bitcoin 15" = "bitcoin 15" ∧
    "bitcoin 15" ≠ "BTC_15m" := by
  decide

/-- C8 (amended): `normalizeMarketKey` matches literal substrings
*case-sensitively*, in order: `BTC`+`15` ⇒ `BTC_15m`, `ETH`+`15` ⇒
`ETH_15m`, `BTC`+(`1h`|`1 hour`) ⇒ `BTC_1h`, `ETH`+(`1h`|`1 hour`) ⇒
`ETH_1h`; canonical keys are fixed points; strings containing neither `BTC`
nor `ETH` pass through verbatim. -/
theorem C8_normalization_rules :
    (∀ k : String, jsIncludes k "BTC" = true → jsIncludes k "15" = true →
      normalizeMarketKey k = "BTC_15m") ∧
    (∀ k : String, jsIncludes k "ETH" = true → jsIncludes k "15" = true →
      jsIncludes k "BTC" = false → normalizeMarketKey k = "ETH_15m") ∧
    (∀ k : String, jsIncludes k "BTC" = true → jsIncludes k "15" = false →
      (jsIncludes k "1h" = true ∨ jsIncludes k "1 hour" = true) →
      normalizeMarketKey k = "BTC_1h") ∧
    (∀ k : String, jsIncludes k "ETH" = true → jsIncludes k "BTC" = false →
      jsIncludes k "15" = false →
      (jsIncludes k "1h" = true ∨ jsIncludes k "1 hour" = true) →
      normalizeMarketKey k = "ETH_1h") ∧
    (∀ k : String, jsIncludes k "BTC" = false → jsIncludes k "ETH" = false →
      normalizeMarketKey k = k) ∧
    (normalizeMarketKey "BTC_15m" = "BTC_15m" ∧
      normalizeMarketKey "ETH_15m" = "ETH_15m" ∧
      normalizeMarketKey "BTC_1h" = "BTC_1h" ∧
      normalizeMarketKey "ETH_1h" = "ETH_1h") := by
  refine ⟨?_, ?_, ?_, ?_, ?_, by decide⟩
  · intro k h1 h2
    simp [normalizeMarketKey, h1, h2]
  · intro k h1 h2 h3
    simp [normalizeMarketKey, h1, h2, h3]
  · intro k h1 h2 h3
    rcases h3 with h3 | h3 <;> simp [normalizeMarketKey, h1, h2, h3]
  · intro k h1 h2 h3 h4
    rcases h4 with h4 | h4 <;> simp [normalizeMarketKey, h1, h2, h3, h4]
  · intro k h1 h2
    simp [normalizeMarketKey, h1, h2]

/-- C8 (witness): the venue key `BTC-UpDown-15` normalizes to `BTC_15m`. -/
theorem C8_witness : normalizeMarketKey "BTC-UpDown-15" = "BTC_15m" :=
  C8_normalization_rules.1 "BTC-UpDown-15" (by decide) (by decide)

end Gabagool
